import Mathlib

/-!
Verification of the duckdb nanodbc / ODBC scanner core: a shallow embedding of the
type mapper, the variable-length read protocol, the statement cursor state machine,
the decimal materialization path, the scan binding and description logic, and the
connection read-only defaults, together with theorems settling the spec's claims.
-/

namespace OdbcSpec

/-! ## SQL type-code constants (values from the standard ODBC headers sql.h / sqlext.h) -/

def SQL_CHAR : Int := 1
def SQL_NUMERIC : Int := 2
def SQL_DECIMAL : Int := 3
def SQL_INTEGER : Int := 4
def SQL_SMALLINT : Int := 5
def SQL_FLOAT : Int := 6
def SQL_REAL : Int := 7
def SQL_DOUBLE : Int := 8
def SQL_DATE : Int := 9
def SQL_TIME : Int := 10
def SQL_TIMESTAMP : Int := 11
def SQL_VARCHAR : Int := 12
def SQL_BOOLEAN : Int := 16
def SQL_TYPE_DATE : Int := 91
def SQL_TYPE_TIME : Int := 92
def SQL_TYPE_TIMESTAMP : Int := 93
def SQL_LONGVARCHAR : Int := -1
def SQL_BINARY : Int := -2
def SQL_VARBINARY : Int := -3
def SQL_LONGVARBINARY : Int := -4
def SQL_BIGINT : Int := -5
def SQL_TINYINT : Int := -6
def SQL_BIT : Int := -7
def SQL_WCHAR : Int := -8
def SQL_WVARCHAR : Int := -9
def SQL_WLONGVARCHAR : Int := -10
def SQL_GUID : Int := -11

/-! ## Host columnar type model (`LogicalType` restricted to the ids this core produces) -/

inductive LType where
  | boolean
  | tinyint
  | smallint
  | integer
  | bigint
  | float
  | double
  | decimal (width : Nat) (scale : Nat)
  | varchar
  | blob
  | date
  | time
  | timestamp
  | uuid
deriving DecidableEq, Repr

/-- Embedding of `NanodbcUtils::TypeToLogicalType` (src/nanodbc_utils.cpp:95-154); the
switch in `ODBCUtils::TypeToLogicalType` (src/odbc_utils.cpp:111-170) is identical. The
decimal case calls `LogicalType::DECIMAL(column_size, decimal_digits)`, whose
parameters are `uint8_t`, so the `SQLULEN`/`SQLSMALLINT` metadata is narrowed mod
256. -/
def TypeToLogicalType (odbcType : Int) (columnSize : Nat) (decimalDigits : Nat) : LType :=
  if odbcType = SQL_BIT ∨ odbcType = SQL_BOOLEAN then .boolean
  else if odbcType = SQL_TINYINT then .tinyint
  else if odbcType = SQL_SMALLINT then .smallint
  else if odbcType = SQL_INTEGER then .integer
  else if odbcType = SQL_BIGINT then .bigint
  else if odbcType = SQL_REAL ∨ odbcType = SQL_FLOAT then .float
  else if odbcType = SQL_DOUBLE then .double
  else if odbcType = SQL_DECIMAL ∨ odbcType = SQL_NUMERIC then
    .decimal (columnSize % 256) (decimalDigits % 256)
  else if odbcType = SQL_CHAR ∨ odbcType = SQL_VARCHAR ∨ odbcType = SQL_LONGVARCHAR ∨
          odbcType = SQL_WCHAR ∨ odbcType = SQL_WVARCHAR ∨ odbcType = SQL_WLONGVARCHAR then .varchar
  else if odbcType = SQL_BINARY ∨ odbcType = SQL_VARBINARY ∨ odbcType = SQL_LONGVARBINARY then .blob
  else if odbcType = SQL_DATE ∨ odbcType = SQL_TYPE_DATE then .date
  else if odbcType = SQL_TYPE_TIME ∨ odbcType = SQL_TIME then .time
  else if odbcType = SQL_TYPE_TIMESTAMP ∨ odbcType = SQL_TIMESTAMP then .timestamp
  else if odbcType = SQL_GUID then .uuid
  else .varchar

/-- The SQL type codes that appear as cases of the `TypeToLogicalType` switch. -/
def knownTypeCodes : List Int :=
  [SQL_BIT, SQL_BOOLEAN, SQL_TINYINT, SQL_SMALLINT, SQL_INTEGER, SQL_BIGINT,
   SQL_REAL, SQL_FLOAT, SQL_DOUBLE, SQL_DECIMAL, SQL_NUMERIC,
   SQL_CHAR, SQL_VARCHAR, SQL_LONGVARCHAR, SQL_WCHAR, SQL_WVARCHAR, SQL_WLONGVARCHAR,
   SQL_BINARY, SQL_VARBINARY, SQL_LONGVARBINARY,
   SQL_DATE, SQL_TYPE_DATE, SQL_TYPE_TIME, SQL_TIME, SQL_TYPE_TIMESTAMP, SQL_TIMESTAMP,
   SQL_GUID]

/-! ## Decimal width/scale fallback (src/nanodbc_scanner.cpp:240-253) -/

/-- Embedding of the width/scale fallback ladder in the DECIMAL case of `ODBCScan`
(src/nanodbc_scanner.cpp:249-253): a zero width falls back to the driver-reported
column size and then to 38; a zero scale falls back to the driver-reported decimal
digits and then to 2. The local `width`/`scale` variables are `uint8_t`, so the
assignments `width = column_size` and `scale = decimal_digits` narrow the driver
metadata mod 256. -/
def effectiveWidthScale (width scale columnSize decimalDigits : Nat) : Nat × Nat :=
  let width1 := if width = 0 then columnSize % 256 else width
  let scale1 := if scale = 0 then decimalDigits % 256 else scale
  let width2 := if width1 = 0 then 38 else width1
  let scale2 := if scale1 = 0 then 2 else scale1
  (width2, scale2)

/-- Width of a decimal type descriptor (`DecimalType::GetWidth`). -/
def decimalTypeWidth : LType → Nat
  | .decimal w _ => w
  | _ => 0

/-- Scale of a decimal type descriptor (`DecimalType::GetScale`). -/
def decimalTypeScale : LType → Nat
  | .decimal _ s => s
  | _ => 0

/-- The (width, scale) pair the scan actually uses for a decimal column: the column type
is built by `TypeToLogicalType` from the driver-reported metadata at bind time, and the
scan re-applies the fallback ladder against the same driver metadata
(src/nanodbc_scanner.cpp:236-253). -/
def scanDecimalWidthScale (columnSize decimalDigits : Nat) : Nat × Nat :=
  let t := TypeToLogicalType SQL_DECIMAL columnSize decimalDigits
  effectiveWidthScale (decimalTypeWidth t) (decimalTypeScale t) columnSize decimalDigits

/-! ## Claim C3 -/

/-- C3 counterexample: a decimal column whose driver reports zero width and scale gets
the bind-time type descriptor DECIMAL(0,0) — `TypeToLogicalType` passes the zeros
straight through — not the claimed default DECIMAL(38,2); the (38,2) default lives only
in the scan-time parse ladder. -/
theorem decimal_descriptor_default_counterexample :
    TypeToLogicalType SQL_DECIMAL 0 0 = .decimal 0 0 ∧
    TypeToLogicalType SQL_DECIMAL 0 0 ≠ .decimal 38 2 := by
  constructor <;> decide

/-- C3 (amended): when the driver reports zero width and scale, the bind-time decimal
type descriptor keeps the zeros (DECIMAL(0,0)) while the (width, scale) pair the scan
parses decimal values against defaults to (38, 2); when the driver supplies nonzero
width and scale below 256, those exact values are used in both the descriptor and the
scan's parse pair (the descriptor stores 8-bit width and scale, so larger metadata
wraps mod 256). -/
theorem decimal_width_scale_defaults (cs dd : Nat) (hcs : cs ≠ 0) (hdd : dd ≠ 0)
    (hcs2 : cs < 256) (hdd2 : dd < 256) :
    TypeToLogicalType SQL_DECIMAL 0 0 = .decimal 0 0 ∧
    scanDecimalWidthScale 0 0 = (38, 2) ∧
    scanDecimalWidthScale cs dd = (cs, dd) ∧
    TypeToLogicalType SQL_DECIMAL cs dd = .decimal cs dd := by
  have hm1 : cs % 256 = cs := Nat.mod_eq_of_lt hcs2
  have hm2 : dd % 256 = dd := Nat.mod_eq_of_lt hdd2
  refine ⟨by decide, by decide, ?_, ?_⟩ <;>
    simp [scanDecimalWidthScale, TypeToLogicalType, effectiveWidthScale,
      decimalTypeWidth, decimalTypeScale, SQL_DECIMAL, SQL_BIT, SQL_BOOLEAN, SQL_TINYINT,
      SQL_SMALLINT, SQL_INTEGER, SQL_BIGINT, SQL_REAL, SQL_FLOAT, SQL_DOUBLE, SQL_NUMERIC,
      hm1, hm2, hcs, hdd]

/-- Witness for C3 (amended) at the concrete driver metadata (10, 3). -/
theorem decimal_width_scale_defaults_witness :
    TypeToLogicalType SQL_DECIMAL 0 0 = .decimal 0 0 ∧
    scanDecimalWidthScale 0 0 = (38, 2) ∧
    scanDecimalWidthScale 10 3 = (10, 3) ∧
    TypeToLogicalType SQL_DECIMAL 10 3 = .decimal 10 3 :=
  decimal_width_scale_defaults 10 3 (by decide) (by decide) (by decide) (by decide)

/-! ## Claim C4 -/

/-- C4 counterexample: the decimal entry of the canonical table does not propagate the
metadata exactly — `LogicalType::DECIMAL` stores 8-bit width and scale, so a driver
reporting column size 300 yields DECIMAL(44, scale), not DECIMAL(300, scale). -/
theorem typeToLogicalType_decimal_narrowing_counterexample :
    TypeToLogicalType SQL_DECIMAL 300 3 = .decimal 44 3 ∧
    TypeToLogicalType SQL_DECIMAL 300 3 ≠ .decimal 300 3 := by
  constructor <;> decide

/-- C4 (amended): `TypeToLogicalType` is total over all SQL type codes: every code
outside the switch falls back to text (VARCHAR), and the known codes follow the
canonical table, except that decimal/numeric map to DECIMAL(width mod 256, scale mod
256) because the decimal descriptor stores 8-bit width and scale. -/
theorem typeToLogicalType_total_table (cs dd : Nat) (c : Int) (hc : c ∉ knownTypeCodes) :
    TypeToLogicalType SQL_BIT cs dd = .boolean ∧
    TypeToLogicalType SQL_BOOLEAN cs dd = .boolean ∧
    TypeToLogicalType SQL_TINYINT cs dd = .tinyint ∧
    TypeToLogicalType SQL_SMALLINT cs dd = .smallint ∧
    TypeToLogicalType SQL_INTEGER cs dd = .integer ∧
    TypeToLogicalType SQL_BIGINT cs dd = .bigint ∧
    TypeToLogicalType SQL_REAL cs dd = .float ∧
    TypeToLogicalType SQL_FLOAT cs dd = .float ∧
    TypeToLogicalType SQL_DOUBLE cs dd = .double ∧
    TypeToLogicalType SQL_DECIMAL cs dd = .decimal (cs % 256) (dd % 256) ∧
    TypeToLogicalType SQL_NUMERIC cs dd = .decimal (cs % 256) (dd % 256) ∧
    TypeToLogicalType SQL_CHAR cs dd = .varchar ∧
    TypeToLogicalType SQL_VARCHAR cs dd = .varchar ∧
    TypeToLogicalType SQL_LONGVARCHAR cs dd = .varchar ∧
    TypeToLogicalType SQL_WCHAR cs dd = .varchar ∧
    TypeToLogicalType SQL_WVARCHAR cs dd = .varchar ∧
    TypeToLogicalType SQL_WLONGVARCHAR cs dd = .varchar ∧
    TypeToLogicalType SQL_BINARY cs dd = .blob ∧
    TypeToLogicalType SQL_VARBINARY cs dd = .blob ∧
    TypeToLogicalType SQL_LONGVARBINARY cs dd = .blob ∧
    TypeToLogicalType SQL_DATE cs dd = .date ∧
    TypeToLogicalType SQL_TYPE_DATE cs dd = .date ∧
    TypeToLogicalType SQL_TIME cs dd = .time ∧
    TypeToLogicalType SQL_TYPE_TIME cs dd = .time ∧
    TypeToLogicalType SQL_TIMESTAMP cs dd = .timestamp ∧
    TypeToLogicalType SQL_TYPE_TIMESTAMP cs dd = .timestamp ∧
    TypeToLogicalType SQL_GUID cs dd = .uuid ∧
    TypeToLogicalType c cs dd = .varchar := by
  simp only [knownTypeCodes, SQL_BIT, SQL_BOOLEAN, SQL_TINYINT, SQL_SMALLINT, SQL_INTEGER,
    SQL_BIGINT, SQL_REAL, SQL_FLOAT, SQL_DOUBLE, SQL_DECIMAL, SQL_NUMERIC, SQL_CHAR,
    SQL_VARCHAR, SQL_LONGVARCHAR, SQL_WCHAR, SQL_WVARCHAR, SQL_WLONGVARCHAR, SQL_BINARY,
    SQL_VARBINARY, SQL_LONGVARBINARY, SQL_DATE, SQL_TYPE_DATE, SQL_TIME, SQL_TYPE_TIME,
    SQL_TIMESTAMP, SQL_TYPE_TIMESTAMP, SQL_GUID, List.mem_cons, List.not_mem_nil,
    or_false, not_or] at hc
  obtain ⟨h1, h2, h3, h4, h5, h6, h7, h8, h9, h10, h11, h12, h13, h14, h15, h16, h17,
    h18, h19, h20, h21, h22, h23, h24, h25, h26, h27⟩ := hc
  refine ⟨?_, ?_, ?_, ?_, ?_, ?_, ?_, ?_, ?_, ?_, ?_, ?_, ?_, ?_, ?_, ?_, ?_, ?_, ?_,
    ?_, ?_, ?_, ?_, ?_, ?_, ?_, ?_, ?_⟩ <;>
    simp [TypeToLogicalType, SQL_BIT, SQL_BOOLEAN, SQL_TINYINT, SQL_SMALLINT, SQL_INTEGER,
      SQL_BIGINT, SQL_REAL, SQL_FLOAT, SQL_DOUBLE, SQL_DECIMAL, SQL_NUMERIC, SQL_CHAR,
      SQL_VARCHAR, SQL_LONGVARCHAR, SQL_WCHAR, SQL_WVARCHAR, SQL_WLONGVARCHAR, SQL_BINARY,
      SQL_VARBINARY, SQL_LONGVARBINARY, SQL_DATE, SQL_TYPE_DATE, SQL_TIME, SQL_TYPE_TIME,
      SQL_TIMESTAMP, SQL_TYPE_TIMESTAMP, SQL_GUID, h1, h2, h3, h4, h5, h6, h7, h8, h9,
      h10, h11, h12, h13, h14, h15, h16, h17, h18, h19, h20, h21, h22, h23, h24, h25,
      h26, h27]

/-- Witness for C4 at the concrete unknown type code 9999. -/
theorem typeToLogicalType_total_table_witness :
    TypeToLogicalType SQL_BIT 0 0 = .boolean ∧ TypeToLogicalType 9999 0 0 = .varchar := by
  have h := typeToLogicalType_total_table 0 0 9999 (by decide)
  exact ⟨h.1, h.2.2.2.2.2.2.2.2.2.2.2.2.2.2.2.2.2.2.2.2.2.2.2.2.2.2.2⟩

/-! ## Bind state and textual description (src/nanodbc_scanner.cpp:379-391) -/

/-- The fields of `ODBCBindData` that `ODBCToString` can observe. -/
structure ODBCBindData where
  table_name : String
  dsn : String
  connection_string : String
  username : String
  password : String
  sql : String
  all_varchar : Bool
deriving DecidableEq, Repr

/-- Embedding of `ODBCToString` (src/nanodbc_scanner.cpp:379-391): the description maps
show the table name, then the DSN if one was used, otherwise the fixed placeholder
string in place of the connection string. -/
def ODBCToString (b : ODBCBindData) : List (String × String) :=
  [("Table", b.table_name)] ++
    (if b.dsn ≠ "" then [("DSN", b.dsn)]
     else if b.connection_string ≠ "" then [("Connection", "Connection String")]
     else [])

/-! ## Claim C8 -/

/-- C8: the plan/diagnostic description of a bound scan is independent of the
credentials and of the connection-string content: two bind states that agree on the
table name and the DSN, and whose connection strings are both empty or both nonempty,
produce identical descriptions — so neither the password nor the connection string can
appear in the output. -/
theorem odbcToString_redacts_credentials (b1 b2 : ODBCBindData)
    (htable : b1.table_name = b2.table_name) (hdsn : b1.dsn = b2.dsn)
    (hconn : b1.connection_string = "" ↔ b2.connection_string = "") :
    ODBCToString b1 = ODBCToString b2 := by
  by_cases hc2 : b2.connection_string = ""
  · have hc1 : b1.connection_string = "" := hconn.mpr hc2
    by_cases hd : b2.dsn = "" <;> simp [ODBCToString, htable, hdsn, hd, hc1, hc2]
  · have hc1 : ¬ b1.connection_string = "" := fun h => hc2 (hconn.mp h)
    by_cases hd : b2.dsn = "" <;> simp [ODBCToString, htable, hdsn, hd, hc1, hc2]

/-- Witness for C8: two bind states differing only in password and connection-string
content produce the same description. -/
theorem odbcToString_redacts_credentials_witness :
    ODBCToString ⟨"t", "", "Driver=X;PWD=hunter2", "u", "hunter2", "", false⟩ =
    ODBCToString ⟨"t", "", "Driver=Y;PWD=other", "v", "other", "", false⟩ :=
  odbcToString_redacts_credentials _ _ rfl rfl (by decide)

/-! ## Connection parameters and read-only connect (src/include/odbc_db.hpp:9-12,
src/include/odbc_connection.hpp:13-19, src/odbc_connection.cpp:86-125) -/

/-- Embedding of `ODBCOpenOptions` (src/include/odbc_db.hpp:9-12) with its field
defaults. -/
structure ODBCOpenOptions where
  read_only : Bool := true
  connection_timeout : String := "60"
deriving DecidableEq, Repr

/-- Embedding of `ConnectionParams` (src/include/odbc_connection.hpp:13-19) with its
field defaults; the constructor variant in src/odbc_connection.cpp:14-34 discriminates
the locator into DSN or connection string by the presence of a '=' character. -/
structure ConnectionParams where
  Dsn : String := ""
  ConnectionString : String := ""
  Username : String := ""
  Password : String := ""
  Timeout : Int := 60
  ReadOnly : Bool := true
deriving DecidableEq, Repr

/-- Embedding of `ConnectionParams::IsValid` (src/include/odbc_connection.hpp:22-24). -/
def ConnectionParams.IsValid (p : ConnectionParams) : Bool :=
  p.Dsn ≠ "" || p.ConnectionString ≠ ""

/-- Embedding of the three-argument `ConnectionParams` construction used by the scanner
binders (src/odbc_connection.cpp:14-34): the locator is a DSN when it contains no '='
character, otherwise a connection string; timeout and read-only keep their defaults. -/
def ConnectionParams.mk3 (connection_info username password : String) : ConnectionParams :=
  if ('=') ∈ connection_info.toList then
    { ConnectionString := connection_info, Username := username, Password := password }
  else
    { Dsn := connection_info, Username := username, Password := password }

/-- Observable outcome of a successful `OdbcConnection::Connect`. -/
structure ConnState where
  connected : Bool
  readOnlyAttrRequested : Bool
deriving DecidableEq, Repr

/-- Embedding of `OdbcConnection::Connect` (src/odbc_connection.cpp:86-125) over a
driver oracle: `driverConnectOk` is whether the native connect succeeds and
`setAttrOk` whether the `SQL_ATTR_ACCESS_MODE` call succeeds. The read-only attribute
is attempted exactly when the params request read-only, and a failure of that call is
swallowed (`catch (...) {}`). -/
def OdbcConnection.Connect (params : ConnectionParams) (driverConnectOk setAttrOk : Bool) :
    Except String ConnState :=
  if ¬ params.IsValid then .error "No valid connection information provided"
  else if ¬ driverConnectOk then .error "connect failed"
  else
    let c : ConnState := { connected := true, readOnlyAttrRequested := params.ReadOnly }
    let _ := setAttrOk
    .ok c

/-! ## Claim C10 -/

/-- C10: both option structures default the read-only flag to true; any params built by
the scanner's three-argument construction request read-only; and for a read-only params
every successful connect requests the native read-only access mode, with a failure of
that native call silently ignored (the connect result does not depend on it). -/
theorem connect_read_only_default (info u pw : String) (p : ConnectionParams)
    (dOk sOk : Bool) (hro : p.ReadOnly = true) :
    ({} : ODBCOpenOptions).read_only = true ∧
    ({} : ConnectionParams).ReadOnly = true ∧
    (ConnectionParams.mk3 info u pw).ReadOnly = true ∧
    OdbcConnection.Connect p dOk sOk = OdbcConnection.Connect p dOk true ∧
    (∀ c, OdbcConnection.Connect p dOk sOk = .ok c → c.readOnlyAttrRequested = true) := by
  refine ⟨rfl, rfl, ?_, rfl, ?_⟩
  · unfold ConnectionParams.mk3
    split <;> rfl
  · intro c hc
    unfold OdbcConnection.Connect at hc
    by_cases hv : p.IsValid <;> by_cases hd : dOk <;> simp [hv, hd] at hc
    rw [← hc, hro]

/-- Witness for C10 at a concrete DSN locator with the read-only attribute call
failing. -/
theorem connect_read_only_default_witness :
    ({} : ODBCOpenOptions).read_only = true ∧
    ({} : ConnectionParams).ReadOnly = true ∧
    (ConnectionParams.mk3 "mydsn" "u" "p").ReadOnly = true ∧
    OdbcConnection.Connect (ConnectionParams.mk3 "mydsn" "u" "p") true false =
      OdbcConnection.Connect (ConnectionParams.mk3 "mydsn" "u" "p") true true ∧
    (∀ c, OdbcConnection.Connect (ConnectionParams.mk3 "mydsn" "u" "p") true false = .ok c →
      c.readOnlyAttrRequested = true) :=
  connect_read_only_default "mydsn" "u" "p" (ConnectionParams.mk3 "mydsn" "u" "p")
    true false (by decide)

/-! ## Statement cursor state machine (src/odbc_statement.cpp) -/

/-- State of an `OdbcStatement` (src/include/odbc_statement.hpp): the open state of the
underlying connection (what nanodbc's `statement::connected()` reports), whether the
native statement handle is still allocated, the `executed` and `hasResult` flags, and
the rows the active result set has not yet delivered through `next()`. -/
structure OdbcStatement where
  connOpen : Bool
  handleOpen : Bool
  executed : Bool
  hasResult : Bool
  resRemaining : Nat
deriving DecidableEq, Repr

/-- A freshly prepared statement (src/odbc_statement.cpp:12-20) on a live connection:
not yet executed, no result. -/
def OdbcStatement.freshPrepared : OdbcStatement :=
  { connOpen := true, handleOpen := true, executed := false, hasResult := false,
    resRemaining := 0 }

/-- Embedding of `OdbcStatement::IsOpen` (src/odbc_statement.cpp:99-101): it returns
`stmt.connected()`, which in nanodbc reports whether the statement's connection is
open — closing the statement does not change what it reads. -/
def OdbcStatement.IsOpen (st : OdbcStatement) : Bool :=
  st.connOpen

/-- Embedding of `OdbcStatement::Step` (src/odbc_statement.cpp:56-73): on the first
call the prepared statement is executed, producing a result set of `rowCount` rows;
every call then advances the cursor via `result.next()`, which returns true while rows
remain. -/
def OdbcStatement.Step (rowCount : Nat) (st : OdbcStatement) :
    Bool × OdbcStatement :=
  if !st.IsOpen then (false, st)
  else
    let st1 := if !st.executed then
      { st with executed := true, hasResult := true, resRemaining := rowCount }
    else st
    if 0 < st1.resRemaining then (true, { st1 with resRemaining := st1.resRemaining - 1 })
    else (false, st1)

/-- Embedding of `OdbcStatement::Close` (src/odbc_statement.cpp:87-97): when `IsOpen()`,
`stmt.close()` frees the native statement handle and the flags reset; the connection —
and hence what `IsOpen()` reads — is untouched; exceptions are swallowed, so the
operation is total. -/
def OdbcStatement.Close (st : OdbcStatement) : OdbcStatement :=
  if st.IsOpen then
    { st with handleOpen := false, hasResult := false, executed := false }
  else st

/-- Iterated `Step`, keeping only the state. -/
def OdbcStatement.stepN (rowCount : Nat) : Nat → OdbcStatement → OdbcStatement
  | 0, st => st
  | k + 1, st => OdbcStatement.stepN rowCount k (OdbcStatement.Step rowCount st).2

lemma OdbcStatement.stepN_succ_right (rowCount k : Nat) (st : OdbcStatement) :
    OdbcStatement.stepN rowCount (k + 1) st =
      (OdbcStatement.Step rowCount (OdbcStatement.stepN rowCount k st)).2 := by
  induction k generalizing st with
  | zero => rfl
  | succ k ih => rw [OdbcStatement.stepN, ih, OdbcStatement.stepN]

lemma OdbcStatement.stepN_fresh_state (rowCount k : Nat) (hk : 1 ≤ k) :
    OdbcStatement.stepN rowCount k OdbcStatement.freshPrepared =
      { connOpen := true, handleOpen := true, executed := true, hasResult := true,
        resRemaining := rowCount - k } := by
  induction k with
  | zero => omega
  | succ k ih =>
    rcases Nat.eq_zero_or_pos k with hk0 | hk1
    · subst hk0
      simp only [OdbcStatement.stepN, OdbcStatement.Step, OdbcStatement.freshPrepared,
        OdbcStatement.IsOpen]
      rcases Nat.eq_zero_or_pos rowCount with h0 | h1 <;> simp_all
    · rw [OdbcStatement.stepN_succ_right, ih hk1]
      simp only [OdbcStatement.Step, OdbcStatement.IsOpen]
      rcases Nat.eq_zero_or_pos (rowCount - k) with h0 | h1 <;> simp_all <;> omega

/-! ## Claim C5 -/

/-- C5 counterexample: `IsOpen` after `Close` on a freshly prepared statement over a
live connection is still true — `Close` frees only the statement handle while
`IsOpen()` returns `stmt.connected()`, the connection's open state — refuting that
Close() followed by IsOpen() is always false. -/
theorem statement_close_isopen_counterexample :
    OdbcStatement.IsOpen (OdbcStatement.Close OdbcStatement.freshPrepared) = true ∧
    OdbcStatement.IsOpen (OdbcStatement.Close OdbcStatement.freshPrepared) ≠ false := by
  constructor <;> decide

/-- C5 (amended), for the nanodbc-wrapper statement cursor: the first `Step` on a
freshly prepared statement executes and returns true exactly when the result set is
nonempty; once the result set is exhausted (at least `rowCount` steps taken) every
further `Step` returns false; `Close` frees the native statement handle when open, is
idempotent and total (never throws) — but `IsOpen` reads the underlying connection's
open state, which `Close` leaves untouched, so it is false after `Close` only when the
connection itself is closed. -/
theorem statement_cursor_state_machine (rowCount k : Nat) (st : OdbcStatement)
    (hk : rowCount ≤ k) :
    (OdbcStatement.Step rowCount OdbcStatement.freshPrepared).1 = decide (0 < rowCount) ∧
    (OdbcStatement.Step rowCount
        (OdbcStatement.stepN rowCount k OdbcStatement.freshPrepared)).1 = false ∧
    (st.connOpen = true → (OdbcStatement.Close st).handleOpen = false) ∧
    OdbcStatement.IsOpen (OdbcStatement.Close st) = OdbcStatement.IsOpen st ∧
    OdbcStatement.Close (OdbcStatement.Close st) = OdbcStatement.Close st := by
  refine ⟨?_, ?_, ?_, ?_, ?_⟩
  · simp only [OdbcStatement.Step, OdbcStatement.freshPrepared, OdbcStatement.IsOpen]
    rcases Nat.eq_zero_or_pos rowCount with h0 | h1 <;> simp_all
  · rcases Nat.eq_zero_or_pos k with hk0 | hk1
    · subst hk0
      have h0 : rowCount = 0 := Nat.le_zero.mp hk
      subst h0
      rfl
    · rw [OdbcStatement.stepN_fresh_state rowCount k hk1]
      simp only [OdbcStatement.Step, OdbcStatement.IsOpen]
      have h0 : rowCount - k = 0 := by omega
      simp [h0]
  · intro h
    simp [OdbcStatement.Close, OdbcStatement.IsOpen, h]
  · by_cases h : st.connOpen = true <;>
      simp [OdbcStatement.Close, OdbcStatement.IsOpen, h]
  · by_cases h : st.connOpen = true <;>
      simp [OdbcStatement.Close, OdbcStatement.IsOpen, h]

/-- Witness for C5 (amended): a two-row result set stepped three times on a live
connection. -/
theorem statement_cursor_state_machine_witness :
    (OdbcStatement.Step 2 OdbcStatement.freshPrepared).1 = decide (0 < 2) ∧
    (OdbcStatement.Step 2 (OdbcStatement.stepN 2 3 OdbcStatement.freshPrepared)).1 = false ∧
    (OdbcStatement.freshPrepared.connOpen = true →
      (OdbcStatement.Close OdbcStatement.freshPrepared).handleOpen = false) ∧
    OdbcStatement.IsOpen (OdbcStatement.Close OdbcStatement.freshPrepared) =
      OdbcStatement.IsOpen OdbcStatement.freshPrepared ∧
    OdbcStatement.Close (OdbcStatement.Close OdbcStatement.freshPrepared) =
      OdbcStatement.Close OdbcStatement.freshPrepared :=
  statement_cursor_state_machine 2 3 OdbcStatement.freshPrepared (by decide)

/-! ## Scalar accessors on NULL (src/odbc_statement.cpp:201-291) -/

/-- Embedding of `OdbcStatement::GetValue<std::string>` (src/odbc_statement.cpp:201-216):
valid only when open with a result; a NULL cell yields the empty string. -/
def OdbcStatement.GetString (st : OdbcStatement) (cell : Option String) :
    Except String String :=
  if !st.IsOpen || !st.hasResult then .error "Statement is not open or no result available"
  else match cell with
    | none => .ok ""
    | some s => .ok s

/-- Embedding of `OdbcStatement::GetValue<int>` (src/odbc_statement.cpp:218-233): a NULL
cell yields 0. -/
def OdbcStatement.GetInt32 (st : OdbcStatement) (cell : Option Int) :
    Except String Int :=
  if !st.IsOpen || !st.hasResult then .error "Statement is not open or no result available"
  else match cell with
    | none => .ok 0
    | some v => .ok v

/-- Embedding of `OdbcStatement::GetValue<int64_t>` (src/odbc_statement.cpp:235-250): a
NULL cell yields 0. -/
def OdbcStatement.GetInt64 (st : OdbcStatement) (cell : Option Int) :
    Except String Int :=
  if !st.IsOpen || !st.hasResult then .error "Statement is not open or no result available"
  else match cell with
    | none => .ok 0
    | some v => .ok v

/-- Embedding of `OdbcStatement::GetValue<double>` (src/odbc_statement.cpp:252-267): a
NULL cell yields 0.0 (doubles are modelled as rationals; only the constant matters
here, no float arithmetic is performed). -/
def OdbcStatement.GetDouble (st : OdbcStatement) (cell : Option ℚ) :
    Except String ℚ :=
  if !st.IsOpen || !st.hasResult then .error "Statement is not open or no result available"
  else match cell with
    | none => .ok 0
    | some v => .ok v

/-- Embedding of `OdbcStatement::GetValue<timestamp_t>` (src/odbc_statement.cpp:269-291):
a NULL cell yields `Timestamp::FromEpochSeconds(0)`, the epoch timestamp (timestamps
are modelled as microseconds since the epoch; the host engine's calendar conversion for
non-NULL cells is applied upstream and the converted value passes through). -/
def OdbcStatement.GetTimestamp (st : OdbcStatement) (cell : Option Int) :
    Except String Int :=
  if !st.IsOpen || !st.hasResult then .error "Statement is not open or no result available"
  else match cell with
    | none => .ok 0
    | some v => .ok v

/-! ## Claim C6 -/

/-- C6: in the HasRow state (open statement with an active result), every scalar
accessor maps a NULL cell to its type-appropriate zero-equivalent instead of throwing:
empty string, 0, 0, 0.0, and the epoch timestamp. -/
theorem null_accessors_return_zero (st : OdbcStatement)
    (hopen : st.connOpen = true) (hres : st.hasResult = true) :
    OdbcStatement.GetString st none = .ok "" ∧
    OdbcStatement.GetInt32 st none = .ok 0 ∧
    OdbcStatement.GetInt64 st none = .ok 0 ∧
    OdbcStatement.GetDouble st none = .ok 0 ∧
    OdbcStatement.GetTimestamp st none = .ok 0 := by
  refine ⟨?_, ?_, ?_, ?_, ?_⟩ <;>
    simp [OdbcStatement.GetString, OdbcStatement.GetInt32, OdbcStatement.GetInt64,
      OdbcStatement.GetDouble, OdbcStatement.GetTimestamp, OdbcStatement.IsOpen,
      hopen, hres]

/-- Witness for C6 at a concrete HasRow state. -/
theorem null_accessors_return_zero_witness :
    OdbcStatement.GetString ⟨true, true, true, true, 1⟩ none = .ok "" ∧
    OdbcStatement.GetInt32 ⟨true, true, true, true, 1⟩ none = .ok 0 ∧
    OdbcStatement.GetInt64 ⟨true, true, true, true, 1⟩ none = .ok 0 ∧
    OdbcStatement.GetDouble ⟨true, true, true, true, 1⟩ none = .ok 0 ∧
    OdbcStatement.GetTimestamp ⟨true, true, true, true, 1⟩ none = .ok 0 :=
  null_accessors_return_zero ⟨true, true, true, true, 1⟩ rfl rfl

/-! ## Raw-ODBC string accessor (src/odbc_stmt.cpp:191-212) -/

/-- Embedding of `ODBCStatement::GetValue<std::string>` (src/odbc_stmt.cpp:191-212): a
single `SQLGetData` call with `SQL_C_CHAR` into a fixed 4096-byte stack buffer. The
driver writes at most 4095 data bytes plus a null terminator; on truncation it reports
the exact total length in the indicator, or `SQL_NO_TOTAL` (-4) when it cannot
(`reportNoTotal`); a NULL indicator yields the empty string. The source takes
`indicator < sizeof(buffer) ? indicator : sizeof(buffer)` bytes, with the signed
indicator converted to the unsigned `size_t` in the comparison. -/
def rawGetValueString (reportNoTotal : Bool) (cell : Option (List Nat)) : List Nat :=
  match cell with
  | none => []
  | some v =>
    let written := if v.length + 1 ≤ 4096 then v ++ [0] else v.take 4095 ++ [0]
    let buffer := written ++ List.replicate (4096 - written.length) 0
    let indicator : Int :=
      if v.length + 1 ≤ 4096 then (v.length : Int)
      else if reportNoTotal then -4 else (v.length : Int)
    let takeLen : Nat := if 0 ≤ indicator ∧ indicator < 4096 then indicator.toNat else 4096
    buffer.take takeLen

/-! ## Claim C9 -/

lemma rawGetValueString_eq (reportNoTotal : Bool) (v : List Nat) :
    rawGetValueString reportNoTotal (some v) =
      if v.length ≤ 4095 then v else v.take 4095 ++ [0] := by
  by_cases h1 : v.length + 1 ≤ 4096
  · have h2 : (0 : Int) ≤ (v.length : Int) ∧ (v.length : Int) < 4096 := by
      constructor
      · exact Int.natCast_nonneg _
      · exact_mod_cast by omega
    have h3 : v.length ≤ 4095 := by omega
    simp only [rawGetValueString, h1, if_true, h2, and_self, Int.toNat_natCast, h3,
      List.append_assoc]
    exact List.take_left' rfl
  · have h3 : ¬ (v.length ≤ 4095) := by omega
    have hcond : ¬ ((0:Int) ≤ (if reportNoTotal = true then (-4:Int) else (v.length : Int)) ∧
        (if reportNoTotal = true then (-4:Int) else (v.length : Int)) < 4096) := by
      by_cases hr : reportNoTotal = true
      · simp [hr]
      · simp only [hr, if_false, Bool.false_eq_true]
        omega
    have hwlen : (List.take 4095 v ++ [0]).length = 4096 := by
      simp [List.length_take]
      omega
    simp only [rawGetValueString, h1, if_false]
    rw [if_neg hcond, if_neg h3, hwlen]
    simp only [Nat.sub_self, List.replicate_zero, List.append_nil]
    exact List.take_of_length_le (le_of_eq hwlen)

/-- C9: the raw-ODBC statement string accessor reads through one fixed 4096-byte buffer
in a single get-data call, so every returned string has at most 4096 bytes; a value
that fits below the buffer comes back intact, and any longer value is silently
truncated (never re-read through the grow-and-retry protocol). -/
theorem raw_string_accessor_truncates_at_4096 (reportNoTotal : Bool) (v : List Nat)
    (hlong : 4096 < v.length) :
    (rawGetValueString reportNoTotal (some v)).length ≤ 4096 ∧
    (∀ w : List Nat, w.length ≤ 4095 → rawGetValueString reportNoTotal (some w) = w) ∧
    rawGetValueString reportNoTotal (some v) ≠ v := by
  have h3 : ¬ (v.length ≤ 4095) := by omega
  have hlen : (rawGetValueString reportNoTotal (some v)).length = 4096 := by
    rw [rawGetValueString_eq, if_neg h3]
    simp [List.length_take]
    omega
  refine ⟨le_of_eq hlen, ?_, ?_⟩
  · intro w hw
    rw [rawGetValueString_eq, if_pos hw]
  · intro heq
    rw [heq] at hlen
    omega

/-- Witness for C9: a 5000-byte value is cut to the 4096-byte buffer while a short
value round-trips. -/
theorem raw_string_accessor_truncates_at_4096_witness :
    (rawGetValueString false (some (List.replicate 5000 65))).length ≤ 4096 ∧
    rawGetValueString false (some [72, 73]) = [72, 73] ∧
    rawGetValueString false (some (List.replicate 5000 65)) ≠ List.replicate 5000 65 := by
  have h := raw_string_accessor_truncates_at_4096 false (List.replicate 5000 65)
    (by rw [List.length_replicate]; omega)
  exact ⟨h.1, h.2.1 [72, 73] (by rw [List.length_cons, List.length_singleton]; omega), h.2.2⟩

/-! ## Batch materialization of decimal columns (src/nanodbc_scanner.cpp:163-377) -/

/-- Physical storage class of a decimal column (`PhysicalType` in the DECIMAL switch,
src/nanodbc_scanner.cpp:260-295). -/
inductive PhysDec where
  | int16 | int32 | int64 | int128
deriving DecidableEq, Repr

/-- Output column kinds relevant to the decimal materialization path of `ODBCScan`
(src/nanodbc_scanner.cpp:207-367): the decimal kind carries the declared (width,
scale) of the bound type and the driver-reported column metadata used as backup. -/
inductive ColKind where
  | integer
  | varchar
  | decimal (width scale columnSize decimalDigits : Nat) (phys : PhysDec)
deriving DecidableEq, Repr

/-- A fetched remote cell: NULL, an integer, or a string (decimal values arrive as
their exact string representation, src/nanodbc_scanner.cpp:256). -/
inductive Cell where
  | null
  | intCell (v : Int)
  | strCell (s : String)
deriving DecidableEq, Repr

/-- Embedding of one column slot of the `ODBCScan` row loop
(src/nanodbc_scanner.cpp:193-367) for the kinds above, parameterized by the host
engine's `TryDecimalStringCast`: a NULL cell clears the validity bit (`none`); a
decimal string is parsed against the effective (width, scale) and a failed parse
clears the validity bit instead of raising; a cell whose runtime shape does not match
the declared kind raises. -/
def materializeCell (tryCast : PhysDec → String → Nat → Nat → Option Int) :
    ColKind → Cell → Except String (Option Cell)
  | _, .null => .ok none
  | .integer, .intCell v => .ok (some (.intCell v))
  | .varchar, .strCell s => .ok (some (.strCell s))
  | .decimal w sc cs dd phys, .strCell s =>
    match tryCast phys s (effectiveWidthScale w sc cs dd).1 (effectiveWidthScale w sc cs dd).2 with
    | some v => .ok (some (.intCell v))
    | none => .ok none
  | _, _ => .error "Unsupported ODBC to DuckDB type conversion"

/-- The value `materializeCell` produces when it does not raise. -/
def cellValue (tryCast : PhysDec → String → Nat → Nat → Option Int) :
    ColKind × Cell → Option Cell
  | (_, .null) => none
  | (.integer, .intCell v) => some (.intCell v)
  | (.varchar, .strCell s) => some (.strCell s)
  | (.decimal w sc cs dd phys, .strCell s) =>
    (tryCast phys s (effectiveWidthScale w sc cs dd).1 (effectiveWidthScale w sc cs dd).2).map
      .intCell
  | _ => none

/-- A declared column kind matched with a runtime cell of the right shape. -/
def WellTypedCell : ColKind × Cell → Prop
  | (_, .null) => True
  | (.integer, .intCell _) => True
  | (.varchar, .strCell _) => True
  | (.decimal _ _ _ _ _, .strCell _) => True
  | _ => False

instance : DecidablePred WellTypedCell := fun p => by
  unfold WellTypedCell
  rcases p with ⟨k, c⟩
  rcases k <;> rcases c <;> simp only [] <;> infer_instance

/-- One output row of the `ODBCScan` loop: each column is materialized in order, the
first raising column aborting the row (src/nanodbc_scanner.cpp:193-368). -/
def processRow (tryCast : PhysDec → String → Nat → Nat → Option Int) :
    List (ColKind × Cell) → Except String (List (Option Cell))
  | [] => .ok []
  | p :: rest => do
    let v ← materializeCell tryCast p.1 p.2
    let vs ← processRow tryCast rest
    pure (v :: vs)

/-- The fetched rows of one scan, each materialized by `processRow`. -/
def processChunk (tryCast : PhysDec → String → Nat → Nat → Option Int) :
    List (List (ColKind × Cell)) → Except String (List (List (Option Cell)))
  | [] => .ok []
  | row :: rest => do
    let r ← processRow tryCast row
    let rs ← processChunk tryCast rest
    pure (r :: rs)

lemma materializeCell_wellTyped (tryCast : PhysDec → String → Nat → Nat → Option Int)
    (p : ColKind × Cell) (h : WellTypedCell p) :
    materializeCell tryCast p.1 p.2 = .ok (cellValue tryCast p) := by
  rcases p with ⟨k, c⟩
  rcases k with _ | _ | ⟨w, sc, cs, dd, phys⟩ <;> rcases c with _ | v | s <;>
    first
      | rfl
      | (simp only [materializeCell, cellValue]
         rcases tryCast phys s (effectiveWidthScale w sc cs dd).1
           (effectiveWidthScale w sc cs dd).2 <;> rfl)
      | exact absurd h (by simp [WellTypedCell])

lemma processRow_wellTyped (tryCast : PhysDec → String → Nat → Nat → Option Int)
    (row : List (ColKind × Cell)) (h : ∀ p ∈ row, WellTypedCell p) :
    processRow tryCast row = .ok (row.map (cellValue tryCast)) := by
  induction row with
  | nil => rfl
  | cons p rest ih =>
    have hp := h p (List.mem_cons_self p rest)
    have hrest := fun q hq => h q (List.mem_cons_of_mem p hq)
    simp only [processRow, materializeCell_wellTyped tryCast p hp, ih hrest, List.map_cons]
    rfl

lemma processChunk_wellTyped (tryCast : PhysDec → String → Nat → Nat → Option Int)
    (rows : List (List (ColKind × Cell))) (h : ∀ row ∈ rows, ∀ p ∈ row, WellTypedCell p) :
    processChunk tryCast rows = .ok (rows.map (·.map (cellValue tryCast))) := by
  induction rows with
  | nil => rfl
  | cons row rest ih =>
    have hrow := h row (List.mem_cons_self row rest)
    have hrest := fun r hr => h r (List.mem_cons_of_mem row hr)
    simp only [processChunk, processRow_wellTyped tryCast row hrow, ih hrest, List.map_cons]
    rfl

/-- Modelled from the spec: the host engine's `TryDecimalStringCast` is not part of this
repository (the scanner only calls it, src/nanodbc_scanner.cpp:263-287). Per the spec
the string is parsed into fixed-point storage for the declared (width, scale) and "a
value with more significant digits than `width` allows is converted to NULL". This
model accepts an optional sign, integer digits and at most `scale` fractional digits,
scales the value to `scale` fractional digits, and fails when the scaled value needs
more than `width` digits. -/
def tryDecimalStringCast (s : String) (width scale : Nat) : Option Int :=
  let cs := s.toList
  let signAndDigits : Int × List Char :=
    match cs with
    | ('-') :: rest => (-1, rest)
    | ('+') :: rest => (1, rest)
    | _ => (1, cs)
  let sign := signAndDigits.1
  let body := signAndDigits.2
  let intPart := body.takeWhile (fun c => c ≠ ('.'))
  let dotAndFrac := body.dropWhile (fun c => c ≠ ('.'))
  let fracPart := dotAndFrac.drop 1
  if body = [] then none
  else if scale < fracPart.length then none
  else do
    let ip ← intPart.foldlM
      (fun acc c => if c.isDigit then some (acc * 10 + (c.toNat - 48)) else none) 0
    let fp ← fracPart.foldlM
      (fun acc c => if c.isDigit then some (acc * 10 + (c.toNat - 48)) else none) 0
    let value : Int :=
      sign * ((ip : Int) * (10 : Int) ^ scale + (fp : Int) * (10 : Int) ^ (scale - fracPart.length))
    if value.natAbs < 10 ^ width then some value else none

/-! ## Claim C2 -/

/-- C2: in a chunk whose cells all match their declared column kinds, materialization
never raises — every row and every column is processed — and any decimal column value
whose string fails to parse against the effective (width, scale) comes out as NULL
(validity cleared) rather than as an error. -/
theorem decimal_parse_failure_yields_null
    (tryCast : PhysDec → String → Nat → Nat → Option Int)
    (rows : List (List (ColKind × Cell)))
    (h : ∀ row ∈ rows, ∀ p ∈ row, WellTypedCell p)
    (w sc cs dd : Nat) (phys : PhysDec) (s : String)
    (hfail : tryCast phys s (effectiveWidthScale w sc cs dd).1
      (effectiveWidthScale w sc cs dd).2 = none) :
    processChunk tryCast rows = .ok (rows.map (·.map (cellValue tryCast))) ∧
    cellValue tryCast (.decimal w sc cs dd phys, .strCell s) = none := by
  refine ⟨processChunk_wellTyped tryCast rows h, ?_⟩
  simp [cellValue, hfail]

/-- Witness for C2: a two-row chunk where the value 100 does not fit width 2 — the
modelled cast fails — so that cell is NULL while every other cell materializes. -/
theorem decimal_parse_failure_yields_null_witness :
    processChunk (fun _ s w sc => tryDecimalStringCast s w sc)
        [[(.decimal 2 0 0 0 .int16, .strCell "100"), (.integer, .intCell 5)],
         [(.varchar, .strCell "x"), (.decimal 2 0 0 0 .int16, .null)]] =
      .ok [[none, some (.intCell 5)], [some (.strCell "x"), none]] ∧
    cellValue (fun _ s w sc => tryDecimalStringCast s w sc)
      (.decimal 2 0 0 0 PhysDec.int16, .strCell "100") = none := by
  have h := decimal_parse_failure_yields_null
    (fun _ s w sc => tryDecimalStringCast s w sc)
    [[(.decimal 2 0 0 0 .int16, .strCell "100"), (.integer, .intCell 5)],
     [(.varchar, .strCell "x"), (.decimal 2 0 0 0 .int16, .null)]]
    (by decide) 2 0 0 0 .int16 "100" (by decide)
  refine ⟨?_, h.2⟩
  rw [h.1]
  rfl

/-! ## Query binding and the zero-column Success path (src/odbc_scanner.cpp) -/

/-- Result of binding an `odbc_query` invocation: the surfaced schema and how many
times the remote statement was executed during bind. -/
structure QueryBindResult where
  names : List String
  types : List LType
  bindExecCount : Nat
deriving DecidableEq, Repr

/-- Embedding of the QUERY branch of `BindOdbcFunction` (src/odbc_scanner.cpp:230-266):
the statement is prepared and `GetColumnCount` is called, which executes the prepared
statement to obtain result metadata (src/odbc_statement.cpp:152-169) — one remote
execution during bind. A zero column count surfaces the single boolean "Success"
column; otherwise the columns are mapped through the type mapper (or all to text under
`all_varchar`). -/
def bindOdbcQuery (columnCount : Nat) (colName : Nat → String) (colType : Nat → LType)
    (allVarchar : Bool) : QueryBindResult :=
  if columnCount = 0 then
    { names := ["Success"], types := [.boolean], bindExecCount := 1 }
  else
    { names := (List.range columnCount).map colName,
      types := (List.range columnCount).map
        (fun i => if allVarchar then .varchar else colType i),
      bindExecCount := 1 }

/-- Embedding of `InitOdbcLocalState` for the Success schema
(src/odbc_scanner.cpp:291-340): when the bound column list is exactly ["Success"] the
statement is executed once via `connection->Execute` and the state starts not-done;
otherwise the query is only prepared (no execution). Returns (done flag, executions
during init). -/
def initOdbcLocalState (names : List String) : Bool × Nat :=
  if names = ["Success"] then (false, 1) else (false, 0)

/-- Embedding of one `ScanOdbcSource` call on a Success-schema state
(src/odbc_scanner.cpp:346-377): a finished state emits nothing; otherwise the single
boolean true row is emitted and the state becomes done. No remote execution happens
during fetch. -/
def scanOdbcSuccessStep (names : List String) (done : Bool) : Bool × List Bool :=
  if done then (done, [])
  else if names = ["Success"] then (true, [true])
  else (done, [])

/-- All rows emitted by `fetchCalls` successive scan calls on a Success-schema state. -/
def scanOdbcSuccessRuns (names : List String) : Nat → Bool → List Bool
  | 0, _ => []
  | k + 1, done =>
    let step := scanOdbcSuccessStep names done
    step.2 ++ scanOdbcSuccessRuns names k step.1

/-- Total remote executions of the statement across one bound invocation of
`odbc_query`: bind, execution-context initialization, and any number of fetch calls
(which never execute). -/
def queryExecCount (columnCount : Nat) (colName : Nat → String) (colType : Nat → LType)
    (allVarchar : Bool) : Nat :=
  let bound := bindOdbcQuery columnCount colName colType allVarchar
  bound.bindExecCount + (initOdbcLocalState bound.names).2

lemma scanOdbcSuccessRuns_done (names : List String) (k : Nat) :
    scanOdbcSuccessRuns names k true = [] := by
  induction k with
  | zero => rfl
  | succ k ih => simp [scanOdbcSuccessRuns, scanOdbcSuccessStep, ih]

/-! ## Claim C7 -/

/-- C7 counterexample: for a zero-column (DDL) query the statement is not executed
exactly once per bound invocation — `GetColumnCount` already executes it during bind
and `InitOdbcLocalState` executes it again — so the count is 2, not 1. -/
theorem query_ddl_single_execution_counterexample :
    queryExecCount 0 (fun _ => "") (fun _ => LType.varchar) false = 2 ∧
    queryExecCount 0 (fun _ => "") (fun _ => LType.varchar) false ≠ 1 := by
  constructor <;> decide

/-- C7 (amended): for a zero-column (DDL/DML) query the surfaced schema is exactly one
boolean column named "Success"; the statement is executed exactly twice per bound
invocation — once at bind time when result metadata is read, once at execution-context
initialization — and never during fetch; and any positive number of fetch calls emits
exactly one row with value true. -/
theorem query_zero_columns_success_schema (colName : Nat → String) (colType : Nat → LType)
    (allVarchar : Bool) (fetchCalls : Nat) (hf : 1 ≤ fetchCalls) :
    (bindOdbcQuery 0 colName colType allVarchar).names = ["Success"] ∧
    (bindOdbcQuery 0 colName colType allVarchar).types = [.boolean] ∧
    queryExecCount 0 colName colType allVarchar = 2 ∧
    scanOdbcSuccessRuns ["Success"] fetchCalls
      (initOdbcLocalState (bindOdbcQuery 0 colName colType allVarchar).names).1 =
      [true] := by
  refine ⟨rfl, rfl, rfl, ?_⟩
  obtain ⟨k, rfl⟩ : ∃ k, fetchCalls = k + 1 := ⟨fetchCalls - 1, by omega⟩
  show scanOdbcSuccessRuns ["Success"] (k + 1) false = [true]
  simp [scanOdbcSuccessRuns, scanOdbcSuccessStep, scanOdbcSuccessRuns_done]

/-- Witness for C7 (amended) with three fetch calls. -/
theorem query_zero_columns_success_schema_witness :
    (bindOdbcQuery 0 (fun _ => "") (fun _ => LType.varchar) false).names = ["Success"] ∧
    (bindOdbcQuery 0 (fun _ => "") (fun _ => LType.varchar) false).types = [.boolean] ∧
    queryExecCount 0 (fun _ => "") (fun _ => LType.varchar) false = 2 ∧
    scanOdbcSuccessRuns ["Success"] 3
      (initOdbcLocalState (bindOdbcQuery 0 (fun _ => "") (fun _ => LType.varchar) false).names).1 =
      [true] :=
  query_zero_columns_success_schema (fun _ => "") (fun _ => LType.varchar) false 3 (by decide)

/-! ## Grow-and-retry variable-length read protocol (src/odbc_utils.cpp:172-255) -/

/-- Embedding of `ODBCUtils::IsBinaryType` (src/odbc_utils.cpp:172-180). -/
def IsBinaryType (sqltype : Int) : Bool :=
  sqltype = SQL_BINARY || sqltype = SQL_VARBINARY || sqltype = SQL_LONGVARBINARY

/-- Embedding of `ODBCUtils::IsWideType` (src/odbc_utils.cpp:182-192). -/
def IsWideType (sqltype : Int) : Bool :=
  sqltype = SQL_WCHAR || sqltype = SQL_WVARCHAR || sqltype = SQL_WLONGVARCHAR

def SQL_NULL_DATA : Int := -1
def SQL_NO_TOTAL : Int := -4

/-- Return codes of `SQLGetData` as the protocol distinguishes them. -/
inductive SqlRet where
  | success | successWithInfo | noData | err
deriving DecidableEq, Repr

/-- Outcome of one `SQLGetData` call: return code, the `cbData` indicator, the bytes
written into the caller's buffer (data bytes plus any null terminator), and how many
value bytes the driver consumed. -/
structure GetDataOut where
  ret : SqlRet
  cbData : Int
  written : List Nat
  consumed : Nat

/-- Standard-conformant driver model for `SQLGetData` on a variable-length column:
`unit` is the byte size of one character of the requested C type (2 for wide
characters, else 1) and `nts` the null-terminator byte count appended for text types.
A NULL value reports `SQL_NULL_DATA`. Otherwise, when the bytes remaining past `off`
plus the terminator fit in `avail`, the driver writes them all and returns
`SQL_SUCCESS` with the exact count; when they do not fit it writes as many whole
characters as fit together with the terminator and returns `SQL_SUCCESS_WITH_INFO`,
reporting either the exact residual length or `SQL_NO_TOTAL` when it cannot determine
it (`reportNoTotal`). -/
def sqlGetData (unit nts : Nat) (reportNoTotal : Bool) (value : Option (List Nat))
    (off avail : Nat) : GetDataOut :=
  match value with
  | none => { ret := .success, cbData := SQL_NULL_DATA, written := [], consumed := 0 }
  | some v =>
    let remaining := v.length - off
    if remaining + nts ≤ avail then
      { ret := .success, cbData := (remaining : Int),
        written := (v.drop off).take remaining ++ List.replicate nts 0,
        consumed := remaining }
    else
      let d := unit * ((avail - nts) / unit)
      { ret := .successWithInfo,
        cbData := if reportNoTotal then SQL_NO_TOTAL else (remaining : Int),
        written := (v.drop off).take d ++ List.replicate nts 0,
        consumed := d }

/-- Write `data` into `buf` starting at byte `pos` (the `SQLGetData` target
`result.data() + totalRead`). -/
def writeAt (buf : List Nat) (pos : Nat) (data : List Nat) : List Nat :=
  buf.take pos ++ data ++ buf.drop (pos + data.length)

/-- Behaviour of `std::vector<char>::resize`: truncate, or zero-extend, to length
`n`. -/
def vecResize (buf : List Nat) (n : Nat) : List Nat :=
  if n ≤ buf.length then buf.take n else buf ++ List.replicate (n - buf.length) 0

/-- The grow-and-retry loop of `ODBCUtils::ReadVarColumn` (src/odbc_utils.cpp:204-254),
fuelled: the state is the call index (feeding the driver's per-call residual-report
choice), the driver's consumed offset `off`, `bufferSize`, `totalRead` and the buffer
contents. On `SQL_SUCCESS` the vector is resized down to the bytes read; on
`SQL_SUCCESS_WITH_INFO` with `SQL_NO_TOTAL` the buffer doubles and the captured bytes
are kept; with an exact residual the buffer is resized to exactly fit; the comparison
`(size_t)cbData >= availableSpace` is the source's unsigned compare, which for the
non-negative exact residual equals the signed one. `none` is returned only on fuel
exhaustion. -/
def readVarLoop (unit nts : Nat) (noTotal : Nat → Bool) (value : Option (List Nat)) :
    Nat → Nat → Nat → Nat → Nat → List Nat → Option (Except String (Bool × List Nat))
  | 0, _, _, _, _, _ => none
  | fuel + 1, i, off, bufferSize, totalRead, buf =>
    let avail := bufferSize - totalRead
    let r := sqlGetData unit nts (noTotal i) value off avail
    let buf1 := writeAt buf totalRead r.written
    if r.ret = .err then some (.error "Failed to read variable data")
    else if r.cbData = SQL_NULL_DATA then some (.ok (true, buf1))
    else if r.ret = .success then
      some (.ok (false, vecResize buf1 (totalRead + r.cbData.toNat)))
    else if r.ret = .successWithInfo then
      if r.cbData = SQL_NO_TOTAL then
        readVarLoop unit nts noTotal value fuel (i + 1) (off + r.consumed)
          (bufferSize * 2) (totalRead + (avail - nts)) (vecResize buf1 (bufferSize * 2))
      else if (avail : Int) ≤ r.cbData then
        readVarLoop unit nts noTotal value fuel (i + 1) (off + r.consumed)
          (totalRead + (avail - nts) + (r.cbData.toNat - (avail - nts)) + nts)
          (totalRead + (avail - nts))
          (vecResize buf1 (totalRead + (avail - nts) + (r.cbData.toNat - (avail - nts)) + nts))
      else some (.ok (false, buf1))
    else some (.ok (false, buf1))

/-- Embedding of `ODBCUtils::ReadVarColumn` (src/odbc_utils.cpp:194-255): the output is
cleared, the buffer starts at 4096 zero bytes, and the loop runs; the null-terminator
size is 0 for binary C types, the wide character size for wide text, else one byte.
The fuel `value length + 2` covers every conformant run, since each retry captures at
least one character. -/
def ReadVarColumn (ctype : Int) (noTotal : Nat → Bool) (value : Option (List Nat)) :
    Option (Except String (Bool × List Nat)) :=
  let needsNullTerm := !(IsBinaryType ctype)
  let nts := if needsNullTerm then (if IsWideType ctype then 2 else 1) else 0
  let unit := if IsWideType ctype then 2 else 1
  let fuel := (match value with | none => 0 | some v => v.length) + 2
  readVarLoop unit nts noTotal value fuel 0 0 4096 0 (List.replicate 4096 0)

lemma writeAt_length (buf data : List Nat) (p : Nat) (h : p + data.length ≤ buf.length) :
    (writeAt buf p data).length = buf.length := by
  simp [writeAt, List.length_take, List.length_drop]
  omega

lemma take_writeAt (buf data : List Nat) (p k : Nat) (hp : p ≤ buf.length)
    (hk : k ≤ data.length) :
    (writeAt buf p data).take (p + k) = buf.take p ++ data.take k := by
  rw [writeAt, List.append_assoc, List.take_append_eq_append_take]
  have h1 : (buf.take p).length = p := by rw [List.length_take]; omega
  rw [List.take_of_length_le (by omega), h1]
  congr 1
  have h3 : p + k - p = k := by omega
  rw [h3, List.take_append_eq_append_take]
  have h4 : k - data.length = 0 := by omega
  rw [h4]
  simp

lemma vecResize_length (buf : List Nat) (n : Nat) : (vecResize buf n).length = n := by
  unfold vecResize
  split
  · simp [List.length_take]
    omega
  · simp
    omega

lemma vecResize_grow_take (buf : List Nat) (n k : Nat) (hn : buf.length ≤ n)
    (hk : k ≤ buf.length) :
    (vecResize buf n).take k = buf.take k := by
  unfold vecResize
  by_cases h : n ≤ buf.length
  · have hb : n = buf.length := le_antisymm h hn
    rw [if_pos h, List.take_take]
    congr 1
    omega
  · rw [if_neg h, List.take_append_of_le_length hk]

/-- Loop invariant of the grow-and-retry read against a conformant driver: at each
iteration the driver offset equals `totalRead`, the buffer prefix equals the value
prefix, every size is a multiple of the character size, and there is room for at
least one more character plus the terminator; from any such state the loop returns
the full value with the null flag clear. -/
lemma readVarLoop_reconstructs (unit nts : Nat) (hu : 1 ≤ unit) (hnu : nts = 0 ∨ nts = unit)
    (noTotal : Nat → Bool) (v : List Nat) (hvd : unit ∣ v.length) :
    ∀ fuel i B T buf,
      buf.length = B →
      T ≤ B →
      buf.take T = v.take T →
      unit ∣ T →
      unit ∣ B →
      nts + unit ≤ B - T →
      T ≤ v.length →
      v.length - T + unit ≤ fuel * unit →
      readVarLoop unit nts noTotal (some v) fuel i T B T buf = some (.ok (false, v)) := by
  intro fuel
  induction fuel with
  | zero =>
    intro i B T buf _ _ _ _ _ _ _ hfuel
    simp at hfuel
    omega
  | succ fuel ih =>
    intro i B T buf hblen hTB htake hdT hdB hroom hTv hfuel
    have hnts_le : nts ≤ unit := by rcases hnu with h | h <;> omega
    have hdnts : unit ∣ nts := by
      rcases hnu with h | h <;> simp [h]
    have havail : unit ∣ (B - T) := Nat.dvd_sub' hdB hdT
    have hda : unit ∣ (B - T - nts) := Nat.dvd_sub' havail hdnts
    have hrem : unit ∣ (v.length - T) := Nat.dvd_sub' hvd hdT
    by_cases hcase : v.length - T + nts ≤ B - T
    · -- SQL_SUCCESS: everything remaining plus the terminator fits in the space left
      have hdrop : (v.drop T).length = v.length - T := List.length_drop T v
      have hwr : (v.drop T).take (v.length - T) = v.drop T :=
        List.take_of_length_le (le_of_eq hdrop)
      simp only [readVarLoop, sqlGetData, if_pos hcase, SQL_NULL_DATA, SQL_NO_TOTAL]
      have hne1 : ¬ ((v.length - T : Nat) : Int) = -1 := by omega
      simp only [hne1, if_false, reduceCtorEq, if_true, Int.toNat_natCast]
      have hX : vecResize
          (writeAt buf T ((v.drop T).take (v.length - T) ++ List.replicate nts 0))
          (T + (v.length - T)) = v := by
        rw [hwr]
        have hwlen : (v.drop T ++ List.replicate nts 0).length = (v.length - T) + nts := by
          simp [List.length_drop]
        have hb1 : (writeAt buf T (v.drop T ++ List.replicate nts 0)).length = B := by
          have hw := writeAt_length buf (v.drop T ++ List.replicate nts 0) T
            (by rw [hwlen, hblen]; omega)
          rw [hw, hblen]
        rw [vecResize, if_pos (by rw [hb1]; omega)]
        rw [take_writeAt buf _ T (v.length - T) (by omega) (by rw [hwlen]; omega)]
        rw [htake, List.take_append_of_le_length (le_of_eq hdrop.symm), hwr]
        exact List.take_append_drop T v
      rw [hX]
    · -- SQL_SUCCESS_WITH_INFO: truncation, retry
      have hd' : unit * ((B - T - nts) / unit) = B - T - nts := Nat.mul_div_cancel' hda
      have hstep : unit ≤ B - T - nts := by omega
      have hlt : B - T - nts < v.length - T := by omega
      have hge : B - T - nts + unit ≤ v.length - T := by
        have h1 : unit ∣ (v.length - T - (B - T - nts)) := Nat.dvd_sub' hrem hda
        have h2 : unit ≤ v.length - T - (B - T - nts) := Nat.le_of_dvd (by omega) h1
        omega
      have hdrop : (v.drop T).length = v.length - T := List.length_drop T v
      have hdtk : ((v.drop T).take (B - T - nts)).length = B - T - nts := by
        rw [List.length_take, hdrop]
        omega
      -- facts shared by both retry branches
      have hwlen : ((v.drop T).take (B - T - nts) ++ List.replicate nts 0).length =
          (B - T - nts) + nts := by
        rw [List.length_append, hdtk, List.length_replicate]
      have hb1 : (writeAt buf T ((v.drop T).take (B - T - nts) ++ List.replicate nts 0)).length
          = B := by
        have hw := writeAt_length buf ((v.drop T).take (B - T - nts) ++ List.replicate nts 0) T
          (by rw [hwlen, hblen]; omega)
        rw [hw, hblen]
      have htk1 : (writeAt buf T ((v.drop T).take (B - T - nts) ++ List.replicate nts 0)).take
          (T + (B - T - nts)) = v.take (T + (B - T - nts)) := by
        rw [take_writeAt buf _ T (B - T - nts) (by omega) (by rw [hwlen]; omega)]
        rw [List.take_append_of_le_length (le_of_eq hdtk.symm),
          List.take_of_length_le (le_of_eq hdtk), htake]
        exact (List.take_add v T (B - T - nts)).symm
      rw [Nat.succ_mul] at hfuel
      by_cases hnt : noTotal i
      · -- the driver reports SQL_NO_TOTAL: buffer doubles
        simp only [readVarLoop, sqlGetData, if_neg hcase, hnt, if_true, SQL_NULL_DATA,
          SQL_NO_TOTAL, reduceCtorEq, if_false]
        simp only [show ¬ ((-4 : Int) = -1) from by omega, if_false, if_true, hd']
        apply ih (i + 1) (B * 2) (T + (B - T - nts))
        · exact vecResize_length _ _
        · omega
        · rw [vecResize_grow_take _ _ _ (by rw [hb1]; omega) (by rw [hb1]; omega)]
          exact htk1
        · exact Nat.dvd_add hdT hda
        · exact Dvd.dvd.mul_right hdB 2
        · omega
        · omega
        · omega
      · -- the driver reports the exact residual: buffer resized to fit
        simp only [readVarLoop, sqlGetData, if_neg hcase, hnt, if_false, SQL_NULL_DATA,
          SQL_NO_TOTAL, reduceCtorEq, if_true]
        have hne1 : ¬ ((v.length - T : Nat) : Int) = -1 := by omega
        have hne4 : ¬ ((v.length - T : Nat) : Int) = -4 := by omega
        have hgeI : ((B - T : Nat) : Int) ≤ ((v.length - T : Nat) : Int) := by
          exact_mod_cast by omega
        simp only [hne1, hne4, if_false, if_pos hgeI, Int.toNat_natCast, hd']
        apply ih (i + 1) _ (T + (B - T - nts))
        · exact vecResize_length _ _
        · omega
        · rw [vecResize_grow_take _ _ _ (by rw [hb1]; omega) (by rw [hb1]; omega)]
          exact htk1
        · exact Nat.dvd_add hdT hda
        · have hB2 : T + (B - T - nts) + (v.length - T - (B - T - nts)) + nts =
              v.length + nts := by omega
          rw [hB2]
          exact Nat.dvd_add hvd hdnts
        · omega
        · omega
        · omega



/-- C1: over every conformant driver chunking — any per-call mix of exact-residual and
unknown-residual (`SQL_NO_TOTAL`) reports — `ReadVarColumn` reconstructs the value
byte-for-byte with the null flag clear, for binary, narrow text and wide text C types
(a wide value is a whole number of 2-byte characters); the zero-length value is the
`v = []` instance, and an immediate NULL indicator sets the null flag and returns
without error. -/
theorem readVarColumn_reconstructs (ctype : Int) (noTotal : Nat → Bool) (v : List Nat)
    (hvd : (if IsWideType ctype then 2 else 1) ∣ v.length) :
    ReadVarColumn ctype noTotal (some v) = some (.ok (false, v)) ∧
    ReadVarColumn ctype noTotal none = some (.ok (true, List.replicate 4096 0)) := by
  constructor
  · unfold ReadVarColumn
    apply readVarLoop_reconstructs
    case hu => by_cases hw : IsWideType ctype <;> simp [hw]
    case hnu =>
      by_cases hb : IsBinaryType ctype <;> by_cases hw : IsWideType ctype <;>
        simp [hb, hw]
    case hvd => exact hvd
    · exact List.length_replicate 4096 0
    · omega
    · rfl
    · exact Nat.dvd_zero _
    · by_cases hw : IsWideType ctype
      · simp [hw]
        decide
      · simp [hw]
    · by_cases hb : IsBinaryType ctype <;> by_cases hw : IsWideType ctype <;>
        simp [hb, hw]
    · exact Nat.zero_le _
    · by_cases hw : IsWideType ctype <;> simp [hw]
  · rfl

/-- Witness for C1: a two-character wide-text value with an alternating residual-report
schedule, and the immediate-NULL case. -/
theorem readVarColumn_reconstructs_witness :
    ReadVarColumn SQL_WCHAR (fun i => i % 2 = 0) (some [72, 0, 105, 0]) =
      some (.ok (false, [72, 0, 105, 0])) ∧
    ReadVarColumn SQL_WCHAR (fun i => i % 2 = 0) none =
      some (.ok (true, List.replicate 4096 0)) :=
  readVarColumn_reconstructs SQL_WCHAR (fun i => i % 2 = 0) [72, 0, 105, 0] (by decide)

end OdbcSpec
